import Mathlib

/-!
Shallow embedding of the FAL Blender add-on (src/blender-script.py and
src/fal_ai_image_to_3d/__init__.py).

The add-on keeps its whole installation state in registered Blender scene
properties; we model the scene as a record of those properties.  External
effects (the pip subprocess, the temporary file, the preference store, the
process environment, the import machinery, bmesh operators) are modelled by
explicit environment records whose fields give the outcome of each fallible
external step: a value, or the message of the exception that step raised.
Each Python function that mutates the scene becomes a Lean function from the
old scene (and its environment) to the new scene.
-/

/-- The scene properties registered by the add-on in register()
    (src/blender-script.py lines 483-526). -/
structure Scene where
  fal_api_key_input : String
  fal_install_log : String
  fal_debug_log : String
  fal_install_success : Bool
  fal_install_in_progress : Bool
  fal_install_progress : Nat
  fal_install_pid : Int
  fal_status_message : String
deriving Repr, DecidableEq

/-- log_debug (lines 22-31): appends a DEBUG line to the scene debug log.
    The console print has no scene effect. -/
def log_debug (message : String) (s : Scene) : Scene :=
  { s with fal_debug_log := s.fal_debug_log ++ "\n[DEBUG] " ++ message }

/-- log_info (lines 34-48): appends an INFO line to the debug log and sets
    the status message. -/
def log_info (message : String) (s : Scene) : Scene :=
  { s with fal_debug_log := s.fal_debug_log ++ "\n[INFO] " ++ message,
           fal_status_message := message }

/-- log_error (lines 51-65): appends an ERROR line to the debug log and sets
    the status message with an ERROR marker. -/
def log_error (message : String) (s : Scene) : Scene :=
  { s with fal_debug_log := s.fal_debug_log ++ "\n[ERROR] " ++ message,
           fal_status_message := "ERROR: " ++ message }

/-- Outcomes of the external steps taken by the installer worker
    _install_process.  Each Except field is the result of one fallible
    external call: ok carries its value, error carries the raised
    exception's message (str(e)). -/
structure InstallEnv where
  /-- tempfile.NamedTemporaryFile (line 110): the temporary log path. -/
  tempfile : Except String String
  /-- site.getsitepackages()[0] (line 114). -/
  sitePackages : Except String String
  /-- sys.executable (line 115). -/
  pythonExe : String
  /-- open(log_path) plus subprocess.Popen (lines 126-132): the child pid. -/
  popen : Except String Int
  /-- process.wait() (line 139): the child's returncode. -/
  waitCode : Except String Int
  /-- reading the captured log file back (lines 146-147). -/
  readOutput : Except String String
  /-- os.unlink of the temporary file (line 172). -/
  unlink : Except String Unit

/-- Observable events of one worker run, used to state when the
    installation log is written relative to the subprocess lifecycle. -/
inductive Event where
  | popenStart (pid : Int)
  | subprocEnd (code : Int)
  | logWrite (content : String)
deriving Repr, DecidableEq

def Event.isLogWrite : Event → Bool
  | Event.logWrite _ => true
  | _ => false

def Event.isSubprocEnd : Event → Bool
  | Event.subprocEnd _ => true
  | _ => false

/-- The except-branch of the worker (lines 159-163): build the error
    message, log it, store it in fal_install_log, force success to false. -/
def installExcept (e : String) (s : Scene) : Scene × List Event :=
  let msg := "Exception during installation: " ++ e
  let s := log_error msg s
  let s := { s with fal_install_log := msg }
  let s := { s with fal_install_success := false }
  (s, [Event.logWrite msg])

/-- The try-block of the worker (lines 124-163): spawn pip, record its pid,
    wait, read back the captured output, store log and success; any raised
    exception falls to installExcept. -/
def installTry (env : InstallEnv) (s : Scene) : Scene × List Event :=
  match env.popen with
  | Except.error e => installExcept e s
  | Except.ok pid =>
    let s := { s with fal_install_pid := pid }
    let s := log_debug ("Started pip process with PID: " ++ toString pid) s
    match env.waitCode with
    | Except.error e =>
      let r := installExcept e s
      (r.1, Event.popenStart pid :: r.2)
    | Except.ok rc =>
      let s := log_debug ("Pip process completed with return code: " ++ toString rc) s
      let ok := rc == 0
      match env.readOutput with
      | Except.error e =>
        let r := installExcept e s
        (r.1, Event.popenStart pid :: Event.subprocEnd rc :: r.2)
      | Except.ok output =>
        let s := log_debug ("Captured " ++ toString output.length ++ " bytes of log output") s
        let s := { s with fal_install_log := output }
        let s := { s with fal_install_success := ok }
        let s :=
          if ok then log_info "FAL package installation completed successfully!" s
          else log_error ("FAL package installation failed with code " ++ toString rc) s
        (s, [Event.popenStart pid, Event.subprocEnd rc, Event.logWrite output])

/-- The unconditional tail of the worker (lines 165-175): clear the
    in-progress flag, snap progress to 100 or 0 according to the success
    property just stored, then best-effort delete of the temporary file. -/
def installFinish (env : InstallEnv) (logPath : String) (s : Scene) : Scene :=
  let s := { s with fal_install_in_progress := false }
  let s := { s with fal_install_progress := if s.fal_install_success then 100 else 0 }
  match env.unlink with
  | Except.ok _ => log_debug ("Removed temporary log file: " ++ logPath) s
  | Except.error e => log_debug ("Failed to remove temp file: " ++ e) s

/-- The ' '.join of the pip command line (line 121-122). -/
def pipCmdLine (pythonExe sitePackages : String) : String :=
  pythonExe ++ " -m pip install fal --target " ++ sitePackages ++ " --verbose"

/-- The installer worker _install_process (lines 104-175).  Returns the
    final scene, the event trace, and whether the thread terminated
    normally: false means an exception escaped the function (the temp-file
    creation at line 110 and the site-packages lookup at line 114 happen
    before the try-block, so an exception there propagates out of the
    worker thread). -/
def install_process (env : InstallEnv) (s : Scene) : Scene × List Event × Bool :=
  let s := log_debug "Installation thread started" s
  match env.tempfile with
  | Except.error _ => (s, [], false)
  | Except.ok logPath =>
    let s := log_debug ("Created temporary log file: " ++ logPath) s
    match env.sitePackages with
    | Except.error _ => (s, [], false)
    | Except.ok sitePackages =>
      let s := log_debug ("Using Python executable: " ++ env.pythonExe) s
      let s := log_debug ("Installing to site-packages: " ++ sitePackages) s
      let s := log_debug ("Running command: " ++ pipCmdLine env.pythonExe sitePackages) s
      let r := installTry env s
      (installFinish env logPath r.1, r.2, true)

/-- install_package (lines 81-102): reset the installation state and hand
    off to the worker thread and the monitor timer (the spawned thread and
    the timer registration are external effects; the worker body is
    modelled separately by install_process). -/
def install_package (s : Scene) : Scene :=
  let s := log_debug "Starting FAL package installation process" s
  let s := { s with fal_install_progress := 0 }
  let s := { s with fal_install_in_progress := true }
  let s := { s with fal_install_log := "" }
  let s := { s with fal_install_success := false }
  log_info "Installing FAL package... This may take a moment." s

/-- The timer callback _monitor_installation (lines 177-200).  Returns the
    new scene and whether the timer keeps running (the code returns None to
    stop and 0.2 to continue; redraw requests have no scene effect). -/
def monitor_installation (s : Scene) : Scene × Bool :=
  if s.fal_install_in_progress = false then
    (log_debug "Installation monitoring complete" s, false)
  else
    let s :=
      if s.fal_install_progress < 90 then
        { s with fal_install_progress := s.fal_install_progress + 1 }
      else s
    (s, true)

/-- n timer ticks of the monitor callback. -/
def monitorIter : Nat → Scene → Scene
  | 0, s => s
  | n + 1, s => monitorIter n (monitor_installation s).1

/-- Operator return values used by the add-on's execute methods. -/
inductive OpResult where
  | FINISHED
  | CANCELLED
deriving Repr, DecidableEq

/-- Report levels passed to Operator.report by the add-on. -/
inductive ReportKind where
  | WARNING
  | INFO
  | ERROR
deriving Repr, DecidableEq

/-- FAL_OT_InstallPackage.execute (lines 352-363): reject with a warning
    when an installation is already in progress, otherwise reset the state
    and start the installation.  Returns the new scene, the operator
    result, and the reports issued. -/
def installPackageExecute (s : Scene) : Scene × OpResult × List (ReportKind × String) :=
  let s := log_debug "Install package operator executed" s
  if s.fal_install_in_progress then
    let s := log_info "Installation already in progress" s
    (s, OpResult.CANCELLED, [(ReportKind.WARNING, "Installation already in progress")])
  else
    let s := install_package s
    (s, OpResult.FINISHED,
      [(ReportKind.INFO, "Installing FAL package... This may take a moment.")])

/-- FALPackageChecker.is_package_installed (lines 69-79).  The outcome of
    the import statement is external: ok carries fal.__file__, error the
    ImportError message.  Returns the boolean result and the new scene. -/
def is_package_installed (falImport : Except String String) (s : Scene) : Bool × Scene :=
  let s := log_debug "Checking if fal package is installed..." s
  match falImport with
  | Except.ok file => (true, log_debug ("FAL package found: " ++ file) s)
  | Except.error e => (false, log_debug ("FAL package not found: " ++ e) s)

/-- The credential stores touched by get_api_key and set_api_key: the addon
    preference field and the FAL_KEY process environment variable, each
    together with the outcome of accessing it.  prefs: reading
    bpy.context.preferences.addons[name].preferences.api_key yields the
    stored string, or raises KeyError or AttributeError with the given
    message.  env: os.environ lookup of FAL_KEY yields its value (none if
    unset), or raises.  prefsWrite and envWrite give the outcome of the
    corresponding assignments. -/
instance exceptDecEq {α β : Type} [DecidableEq α] [DecidableEq β] :
    DecidableEq (Except α β)
  | Except.ok x, Except.ok y =>
    if h : x = y then isTrue (by rw [h]) else isFalse (fun hc => by cases hc; exact h rfl)
  | Except.ok _, Except.error _ => isFalse (fun hc => by cases hc)
  | Except.error _, Except.ok _ => isFalse (fun hc => by cases hc)
  | Except.error x, Except.error y =>
    if h : x = y then isTrue (by rw [h]) else isFalse (fun hc => by cases hc; exact h rfl)

structure KeyStore where
  prefs : Except String String
  env : Except String (Option String)
  prefsWrite : Except String Unit
  envWrite : Except String Unit
deriving Repr, DecidableEq

/-- The environment-variable half of get_api_key (lines 232-242):
    os.environ.get of FAL_KEY with default empty string, logging whether a
    key was found; a raised exception is caught and yields empty string. -/
def getApiKeyEnv (ks : KeyStore) (s : Scene) : String × Scene :=
  match ks.env with
  | Except.ok envVal =>
    let key := envVal.getD ""
    let s :=
      if key == "" then log_debug "No API key found in environment variable" s
      else log_debug "API key found in environment variable" s
    (key, s)
  | Except.error e =>
    ("", log_debug ("Error accessing environment variable: " ++ e) s)

/-- get_api_key (lines 220-242): return the addon-preference key when it is
    truthy (non-empty); otherwise fall back to the FAL_KEY environment
    variable. -/
def get_api_key (ks : KeyStore) (s : Scene) : String × Scene :=
  let s := log_debug "Getting API key" s
  match ks.prefs with
  | Except.ok k =>
    if k == "" then getApiKeyEnv ks s
    else (k, log_debug "API key found in addon preferences" s)
  | Except.error e =>
    let s := log_debug ("Could not get API key from preferences: " ++ e) s
    getApiKeyEnv ks s

/-- set_api_key (lines 245-264): try to store the value in the addon
    preferences (KeyError and AttributeError are swallowed), then set the
    FAL_KEY environment variable; returns False only when that assignment
    raises.  Returns the boolean result, the updated stores, and the new
    scene. -/
def set_api_key (value : String) (ks : KeyStore) (s : Scene) : Bool × KeyStore × Scene :=
  let s := log_debug "Setting API key" s
  let prefsStep : KeyStore × Scene :=
    match ks.prefsWrite with
    | Except.ok _ =>
      ({ ks with prefs := Except.ok value }, log_debug "API key saved to addon preferences" s)
    | Except.error e =>
      (ks, log_debug ("Could not save API key to preferences: " ++ e) s)
  let ks := prefsStep.1
  let s := prefsStep.2
  match ks.envWrite with
  | Except.ok _ =>
    (true, { ks with env := Except.ok (some value) },
      log_debug "API key set as environment variable" s)
  | Except.error e =>
    (false, ks, log_error ("Error setting FAL_KEY environment variable: " ++ e) s)

/-- Whether an external step succeeded. -/
def stepOk : Except String Unit → Bool
  | Except.ok _ => true
  | Except.error _ => false

/-- Mesh vertices, abstractly: coordinate triples. -/
def MeshData := List (Rat × Rat × Rat)

instance : DecidableEq MeshData := by
  unfold MeshData
  infer_instance

/-- A Blender object as touched by FALMeshProcessor.process_mesh: its type
    string, its mesh data, its interaction mode, its location z coordinate,
    and its origin/transform bookkeeping, the latter two mutated only
    through the delegated Blender operators. -/
structure BObject where
  type : String
  data : MeshData
  mode : String
  locationZ : Rat
  originMark : String
  transformMark : String
deriving DecidableEq

/-- The external Blender and bmesh operations process_mesh delegates to
    (bmesh.ops.remove_doubles, bpy.ops.object.origin_set,
    bpy.ops.object.transform_apply); their behaviour lives outside the
    repository, so they are parameters of the model. -/
structure MeshOps where
  removeDoubles : MeshData → MeshData
  originSet : BObject → BObject
  transformApply : BObject → BObject

/-- FALMeshProcessor.process_mesh (src/fal_ai_image_to_3d/__init__.py
    lines 276-303): return untouched unless the object is a MESH; otherwise
    enter edit mode, merge vertices by distance, return to object mode,
    recenter the origin, apply transforms, and drop the object onto the
    ground plane. -/
def process_mesh (ops : MeshOps) (obj : BObject) : BObject :=
  if obj.type != "MESH" then obj
  else
    let obj := { obj with mode := "EDIT" }
    let obj := { obj with data := ops.removeDoubles obj.data }
    let obj := { obj with mode := "OBJECT" }
    let obj := ops.originSet obj
    let obj := ops.transformApply obj
    { obj with locationZ := 0 }

/-! Concrete inputs used by counterexamples and witnesses. -/

/-- The scene as registered with all property defaults (register(),
    lines 483-526). -/
def defaultScene : Scene :=
  { fal_api_key_input := ""
    fal_install_log := ""
    fal_debug_log := "[DEBUG] FAL Package Manager debug log initialized"
    fal_install_success := false
    fal_install_in_progress := false
    fal_install_progress := 0
    fal_install_pid := -1
    fal_status_message := "" }

/-- The scene right after install_package has reset the installation
    state: an installation is in progress. -/
def resetScene : Scene := install_package defaultScene

/-- A worker environment where every external step succeeds and pip exits
    with code 0. -/
def envSuccess : InstallEnv :=
  { tempfile := Except.ok "/tmp/tmp123.txt"
    sitePackages := Except.ok "/blender/4.0/python/lib/site-packages"
    pythonExe := "/blender/4.0/python/bin/python"
    popen := Except.ok 4242
    waitCode := Except.ok 0
    readOutput := Except.ok "Successfully installed fal-1.0"
    unlink := Except.ok () }

/-- A worker environment where tempfile.NamedTemporaryFile raises before
    the try-block is entered (line 110). -/
def envTempfileFails : InstallEnv :=
  { envSuccess with tempfile := Except.error "No space left on device" }

/-- A worker environment where site.getsitepackages()[0] raises IndexError
    before the try-block is entered (line 114). -/
def envSiteFails : InstallEnv :=
  { envSuccess with sitePackages := Except.error "list index out of range" }

/-- A worker environment where subprocess.Popen raises inside the
    try-block, so no pip subprocess ever runs. -/
def envPopenFails : InstallEnv :=
  { envSuccess with
    popen := Except.error "Permission denied"
    waitCode := Except.error "no process"
    readOutput := Except.error "no output" }

/-! Helper lemmas about the worker pieces. -/

theorem log_debug_fields (m : String) (s : Scene) :
    (log_debug m s).fal_install_log = s.fal_install_log ∧
    (log_debug m s).fal_install_success = s.fal_install_success ∧
    (log_debug m s).fal_install_in_progress = s.fal_install_in_progress ∧
    (log_debug m s).fal_install_progress = s.fal_install_progress ∧
    (log_debug m s).fal_install_pid = s.fal_install_pid := by
  simp [log_debug]

theorem installFinish_in_progress (env : InstallEnv) (lp : String) (s : Scene) :
    (installFinish env lp s).fal_install_in_progress = false := by
  unfold installFinish
  cases env.unlink <;> simp [log_debug]

theorem installFinish_progress (env : InstallEnv) (lp : String) (s : Scene) :
    (installFinish env lp s).fal_install_progress =
      if s.fal_install_success then 100 else 0 := by
  unfold installFinish
  cases env.unlink <;> simp [log_debug]

theorem installFinish_success (env : InstallEnv) (lp : String) (s : Scene) :
    (installFinish env lp s).fal_install_success = s.fal_install_success := by
  unfold installFinish
  cases env.unlink <;> simp [log_debug]

theorem installFinish_log (env : InstallEnv) (lp : String) (s : Scene) :
    (installFinish env lp s).fal_install_log = s.fal_install_log := by
  unfold installFinish
  cases env.unlink <;> simp [log_debug]

theorem installTry_ok (env : InstallEnv) (s : Scene) (pid rc : Int) (out : String)
    (hpo : env.popen = Except.ok pid) (hwc : env.waitCode = Except.ok rc)
    (hro : env.readOutput = Except.ok out) :
    (installTry env s).1.fal_install_success = (rc == 0) ∧
    (installTry env s).1.fal_install_log = out ∧
    (installTry env s).2 = [Event.popenStart pid, Event.subprocEnd rc, Event.logWrite out] := by
  unfold installTry
  rw [hpo, hwc, hro]
  by_cases h : rc == 0 <;> simp [h, log_debug, log_info, log_error]

/-- The scene produced by the worker's setup logging, once the temporary
    file and the site-packages directory have been obtained. -/
def preludeScene (env : InstallEnv) (s : Scene) (lp sp : String) : Scene :=
  log_debug ("Running command: " ++ pipCmdLine env.pythonExe sp)
    (log_debug ("Installing to site-packages: " ++ sp)
      (log_debug ("Using Python executable: " ++ env.pythonExe)
        (log_debug ("Created temporary log file: " ++ lp)
          (log_debug "Installation thread started" s))))

theorem install_process_normal (env : InstallEnv) (s : Scene) (lp sp : String)
    (htf : env.tempfile = Except.ok lp) (hsp : env.sitePackages = Except.ok sp) :
    install_process env s =
      (installFinish env lp (installTry env (preludeScene env s lp sp)).1,
       (installTry env (preludeScene env s lp sp)).2, true) := by
  unfold install_process preludeScene
  rw [htf, hsp]

/-! Claim theorems. -/

/-- C1: the claim says every exception raised inside the installer worker
    is caught, described in the log, and leaves success = false and
    in-progress = false.  The code violates this: the temporary-file
    creation at line 110 runs before the try-block, so when it raises, the
    exception escapes the worker thread (third component false) and the
    state is left with in-progress still true and an empty log. -/
theorem C1_setup_exception_escapes_worker :
    (install_process envTempfileFails resetScene).2.2 = false ∧
    (install_process envTempfileFails resetScene).1.fal_install_in_progress = true ∧
    (install_process envTempfileFails resetScene).1.fal_install_log = "" ∧
    (install_process envTempfileFails resetScene).1.fal_install_success = false := by
  decide

/-- C2: for every worker run whose pip subprocess exits with code 0 (all
    external steps succeeding), the final state has success = true,
    progress = 100 and in-progress = false. -/
theorem C2_successful_worker_completion (env : InstallEnv) (s : Scene)
    (lp sp out : String) (pid : Int)
    (htf : env.tempfile = Except.ok lp)
    (hsp : env.sitePackages = Except.ok sp)
    (hpo : env.popen = Except.ok pid)
    (hwc : env.waitCode = Except.ok 0)
    (hro : env.readOutput = Except.ok out) :
    (install_process env s).1.fal_install_success = true ∧
    (install_process env s).1.fal_install_progress = 100 ∧
    (install_process env s).1.fal_install_in_progress = false := by
  rw [install_process_normal env s lp sp htf hsp]
  have h := installTry_ok env (preludeScene env s lp sp) pid 0 out hpo hwc hro
  refine ⟨?_, ?_, installFinish_in_progress _ _ _⟩
  · rw [installFinish_success, h.1]
    rfl
  · rw [installFinish_progress, h.1]
    rfl

theorem C2_successful_worker_completion_witness :
    (install_process envSuccess resetScene).1.fal_install_success = true ∧
    (install_process envSuccess resetScene).1.fal_install_progress = 100 ∧
    (install_process envSuccess resetScene).1.fal_install_in_progress = false :=
  C2_successful_worker_completion envSuccess resetScene
    "/tmp/tmp123.txt" "/blender/4.0/python/lib/site-packages"
    "Successfully installed fal-1.0" 4242 rfl rfl rfl rfl rfl

/-- C3: the claim says every failing worker run — non-zero exit or an
    exception raised during the run — ends with success = false,
    progress = 0 and in-progress = false.  The code violates this for
    exceptions raised during setup: when site.getsitepackages()[0] raises
    at line 114, before the try-block, the worker dies with the exception
    (third component false) and in-progress is left true, though success
    and progress still hold their reset values. -/
theorem C3_setup_exception_leaves_in_progress :
    (install_process envSiteFails resetScene).2.2 = false ∧
    (install_process envSiteFails resetScene).1.fal_install_in_progress = true ∧
    (install_process envSiteFails resetScene).1.fal_install_success = false ∧
    (install_process envSiteFails resetScene).1.fal_install_progress = 0 := by
  decide

/-- C4: when an installation is already in progress, the install-package
    operator cancels with a warning and leaves every installation-state
    field (progress, in-progress flag, log, success, pid) unchanged. -/
theorem C4_reject_concurrent_install (s : Scene)
    (h : s.fal_install_in_progress = true) :
    (installPackageExecute s).2.1 = OpResult.CANCELLED ∧
    (ReportKind.WARNING, "Installation already in progress") ∈ (installPackageExecute s).2.2 ∧
    (installPackageExecute s).1.fal_install_progress = s.fal_install_progress ∧
    (installPackageExecute s).1.fal_install_in_progress = s.fal_install_in_progress ∧
    (installPackageExecute s).1.fal_install_log = s.fal_install_log ∧
    (installPackageExecute s).1.fal_install_success = s.fal_install_success ∧
    (installPackageExecute s).1.fal_install_pid = s.fal_install_pid := by
  simp [installPackageExecute, log_debug, log_info, h]

theorem C4_reject_concurrent_install_witness :
    (installPackageExecute resetScene).2.1 = OpResult.CANCELLED ∧
    (ReportKind.WARNING, "Installation already in progress") ∈ (installPackageExecute resetScene).2.2 ∧
    (installPackageExecute resetScene).1.fal_install_progress = resetScene.fal_install_progress ∧
    (installPackageExecute resetScene).1.fal_install_in_progress = resetScene.fal_install_in_progress ∧
    (installPackageExecute resetScene).1.fal_install_log = resetScene.fal_install_log ∧
    (installPackageExecute resetScene).1.fal_install_success = resetScene.fal_install_success ∧
    (installPackageExecute resetScene).1.fal_install_pid = resetScene.fal_install_pid :=
  C4_reject_concurrent_install resetScene (by decide)

/-! Single-step lemmas about the monitor callback. -/

theorem monitor_keeps_in_progress (s : Scene)
    (hin : s.fal_install_in_progress = true) :
    (monitor_installation s).1.fal_install_in_progress = true := by
  unfold monitor_installation
  rw [hin]
  by_cases h : s.fal_install_progress < 90 <;> simp [h, hin]

theorem monitor_mono (s : Scene) (hin : s.fal_install_in_progress = true) :
    s.fal_install_progress ≤ (monitor_installation s).1.fal_install_progress := by
  unfold monitor_installation
  rw [hin]
  by_cases h : s.fal_install_progress < 90 <;> simp [h]

theorem monitor_cap (s : Scene) (hin : s.fal_install_in_progress = true)
    (hcap : s.fal_install_progress ≤ 90) :
    (monitor_installation s).1.fal_install_progress ≤ 90 := by
  unfold monitor_installation
  rw [hin]
  by_cases h : s.fal_install_progress < 90 <;> simp [h] <;> omega

/-- C5: while the in-progress flag holds, any number of monitor ticks keeps
    the flag true, keeps progress at most 90 when it started at most 90,
    never decreases progress along the run, and each further tick is again
    non-decreasing — so the polling observer alone can never produce the
    terminal values 100 (success) or a drop to 0 (failure). -/
theorem C5_monitor_progress_bounds (s : Scene) (n : Nat)
    (hin : s.fal_install_in_progress = true)
    (hcap : s.fal_install_progress ≤ 90) :
    (monitorIter n s).fal_install_in_progress = true ∧
    (monitorIter n s).fal_install_progress ≤ 90 ∧
    (monitorIter n s).fal_install_progress ≤ (monitorIter (n + 1) s).fal_install_progress ∧
    s.fal_install_progress ≤ (monitorIter n s).fal_install_progress := by
  induction n generalizing s with
  | zero =>
    exact ⟨hin, hcap, monitor_mono s hin, le_refl _⟩
  | succ n ih =>
    have h1 := monitor_keeps_in_progress s hin
    have h2 := monitor_mono s hin
    have h3 := monitor_cap s hin hcap
    have h := ih (monitor_installation s).1 h1 h3
    exact ⟨h.1, h.2.1, h.2.2.1, le_trans h2 h.2.2.2⟩

theorem C5_monitor_progress_bounds_witness :
    (monitorIter 7 resetScene).fal_install_in_progress = true ∧
    (monitorIter 7 resetScene).fal_install_progress ≤ 90 ∧
    (monitorIter 7 resetScene).fal_install_progress ≤ (monitorIter 8 resetScene).fal_install_progress ∧
    resetScene.fal_install_progress ≤ (monitorIter 7 resetScene).fal_install_progress :=
  C5_monitor_progress_bounds resetScene 7 (by decide) (by decide)

/-- C6: the claim says is_package_installed mutates no program state.  The
    code violates this: the call appends its debug lines to the scene's
    fal_debug_log property, so the resulting scene differs from the input
    scene. -/
theorem C6_is_package_installed_mutates_debug_log :
    (is_package_installed (Except.ok "/blender/site-packages/fal/init.py")
        defaultScene).2 ≠ defaultScene := by
  decide

/-- C6 amended: is_package_installed returns true exactly when the import
    of fal resolves and false on resolution failure, a repeated call with
    the same import outcome returns the same result, and every scene field
    other than the debug log is unchanged. -/
theorem C6_pure_up_to_debug_log (falImport : Except String String) (s : Scene) :
    (is_package_installed falImport s).1 =
      (match falImport with
       | Except.ok _ => true
       | Except.error _ => false) ∧
    (is_package_installed falImport (is_package_installed falImport s).2).1 =
      (is_package_installed falImport s).1 ∧
    (is_package_installed falImport s).2.fal_install_log = s.fal_install_log ∧
    (is_package_installed falImport s).2.fal_install_success = s.fal_install_success ∧
    (is_package_installed falImport s).2.fal_install_in_progress = s.fal_install_in_progress ∧
    (is_package_installed falImport s).2.fal_install_progress = s.fal_install_progress ∧
    (is_package_installed falImport s).2.fal_install_pid = s.fal_install_pid ∧
    (is_package_installed falImport s).2.fal_api_key_input = s.fal_api_key_input ∧
    (is_package_installed falImport s).2.fal_status_message = s.fal_status_message := by
  cases falImport <;> simp [is_package_installed, log_debug]

/-- C7: the claim says the installation log is written exactly once, after
    the subprocess exits, with the subprocess's combined output.  The code
    violates this on exception runs: when subprocess.Popen raises, no
    subprocess ever runs or exits, yet the worker writes the log once with
    the exception description. -/
theorem C7_log_write_without_pip_run :
    (install_process envPopenFails resetScene).2.1.countP Event.isLogWrite = 1 ∧
    (install_process envPopenFails resetScene).2.1.countP Event.isSubprocEnd = 0 ∧
    (install_process envPopenFails resetScene).1.fal_install_log =
      "Exception during installation: Permission denied" := by
  decide

/-- C7 amended: on every worker run in which the subprocess is launched,
    waited on, and its captured output read back successfully, the event
    trace is exactly spawn, subprocess exit, then a single log write whose
    content is the captured combined output; the log field holds that
    output at the end and was written by no other step.  On exception runs
    the single write instead carries the exception description and may
    happen without any subprocess exit. -/
theorem C7_single_log_write_after_wait (env : InstallEnv) (s : Scene)
    (lp sp out : String) (pid rc : Int)
    (htf : env.tempfile = Except.ok lp)
    (hsp : env.sitePackages = Except.ok sp)
    (hpo : env.popen = Except.ok pid)
    (hwc : env.waitCode = Except.ok rc)
    (hro : env.readOutput = Except.ok out) :
    (install_process env s).2.1 =
      [Event.popenStart pid, Event.subprocEnd rc, Event.logWrite out] ∧
    (install_process env s).2.1.countP Event.isLogWrite = 1 ∧
    (install_process env s).1.fal_install_log = out := by
  rw [install_process_normal env s lp sp htf hsp]
  have h := installTry_ok env (preludeScene env s lp sp) pid rc out hpo hwc hro
  refine ⟨h.2.2, ?_, ?_⟩
  · show List.countP Event.isLogWrite (installTry env (preludeScene env s lp sp)).2 = 1
    rw [h.2.2]
    rfl
  · show (installFinish env lp (installTry env (preludeScene env s lp sp)).1).fal_install_log = out
    rw [installFinish_log, h.2.1]

theorem C7_single_log_write_after_wait_witness :
    (install_process envSuccess resetScene).2.1 =
      [Event.popenStart 4242, Event.subprocEnd 0,
       Event.logWrite "Successfully installed fal-1.0"] ∧
    (install_process envSuccess resetScene).2.1.countP Event.isLogWrite = 1 ∧
    (install_process envSuccess resetScene).1.fal_install_log =
      "Successfully installed fal-1.0" :=
  C7_single_log_write_after_wait envSuccess resetScene
    "/tmp/tmp123.txt" "/blender/4.0/python/lib/site-packages"
    "Successfully installed fal-1.0" 4242 0 rfl rfl rfl rfl rfl

/-- C8: get_api_key returns the addon-preference key when that key is a
    non-empty string, and otherwise (empty preference key, or preference
    access raising) returns the FAL_KEY environment value, defaulting to
    the empty string when unset; and set_api_key, when both stores accept
    the write, stores the value in the preference field and in the FAL_KEY
    environment variable. -/
theorem C8_key_precedence_and_dual_write (ks : KeyStore) (s : Scene)
    (v : String) (envVal : Option String)
    (henv : ks.env = Except.ok envVal)
    (hpw : ks.prefsWrite = Except.ok ())
    (hew : ks.envWrite = Except.ok ()) :
    (get_api_key ks s).1 =
      (match ks.prefs with
       | Except.ok k => if k = "" then envVal.getD "" else k
       | Except.error _ => envVal.getD "") ∧
    (set_api_key v ks s).2.1.prefs = Except.ok v ∧
    (set_api_key v ks s).2.1.env = Except.ok (some v) := by
  refine ⟨?_, ?_, ?_⟩
  · cases hp : ks.prefs with
    | ok k =>
      by_cases hk : k = "" <;>
        simp [get_api_key, getApiKeyEnv, hp, henv, hk, log_debug]
    | error e => simp [get_api_key, getApiKeyEnv, hp, henv, log_debug]
  · simp [set_api_key, hpw, hew, log_debug]
  · simp [set_api_key, hpw, hew, log_debug]

/-- A key store whose preference field holds a non-empty key and whose
    environment variable holds a different value; both stores accept
    writes. -/
def ksPrefSet : KeyStore :=
  { prefs := Except.ok "pref-key"
    env := Except.ok (some "env-key")
    prefsWrite := Except.ok ()
    envWrite := Except.ok () }

theorem C8_key_precedence_and_dual_write_witness :
    (get_api_key ksPrefSet defaultScene).1 = "pref-key" ∧
    (set_api_key "fresh" ksPrefSet defaultScene).2.1.prefs = Except.ok "fresh" ∧
    (set_api_key "fresh" ksPrefSet defaultScene).2.1.env = Except.ok (some "fresh") := by
  have h := C8_key_precedence_and_dual_write ksPrefSet defaultScene
    "fresh" (some "env-key") rfl rfl rfl
  exact ⟨h.1, h.2.1, h.2.2⟩

/-- C9: set_api_key returns true exactly when the environment-variable
    assignment succeeds — in particular even when the preference store
    rejects the save — and false only when that assignment raises. -/
theorem C9_set_api_key_result (v : String) (ks : KeyStore) (s : Scene) :
    (set_api_key v ks s).1 = stepOk ks.envWrite := by
  cases hp : ks.prefsWrite <;> cases hw : ks.envWrite <;>
    simp [set_api_key, stepOk, hp, hw, log_debug, log_error]

/-- C10: for every object whose type is not MESH, process_mesh returns the
    object completely unchanged: no mode change, no vertex merge, no origin
    or transform operation, no relocation. -/
theorem C10_process_mesh_non_mesh_untouched (ops : MeshOps) (obj : BObject)
    (h : obj.type ≠ "MESH") :
    process_mesh ops obj = obj := by
  simp [process_mesh, h]

/-- Mesh operations that act as the identity, standing in for the external
    Blender operators in the witness. -/
def idMeshOps : MeshOps :=
  { removeDoubles := fun d => d
    originSet := fun o => o
    transformApply := fun o => o }

/-- A camera object: not a MESH. -/
def cameraObject : BObject :=
  { type := "CAMERA"
    data := []
    mode := "OBJECT"
    locationZ := 5
    originMark := "unset"
    transformMark := "unset" }

theorem C10_process_mesh_non_mesh_untouched_witness :
    process_mesh idMeshOps cameraObject = cameraObject :=
  C10_process_mesh_non_mesh_untouched idMeshOps cameraObject (by decide)
